import Mathlib

/-!
Shallow embedding of the core opportunity-detection / profit-optimization
pipeline of the on1builder repository, together with proofs settling the
frozen claims about its specification.

Conventions of the embedding:
* Python floats are modelled as exact rationals (`ℚ`).
* Python dictionaries with string keys are modelled as association lists,
  preserving insertion order (as Python `dict` does).
* `float(...)` conversions of untyped dictionary values can raise; inputs
  carry an explicit well-formedness flag for that, and fallible code is
  modelled with `Except` / explicit fallback branches mirroring the
  `try/except` structure of the source.
* Results of external network calls (web3, relay HTTP) are inputs of the
  embedded functions: an inductive describes the possible outcomes
  (transport exception, error payload, normal payload).
* Python `int(x)` truncates toward zero; `pyInt` models it on `ℚ`.
-/

/-- Python `int(x)` for a real-valued `x`: truncation toward zero. -/
def pyInt (x : ℚ) : ℤ := if 0 ≤ x then ⌊x⌋ else ⌈x⌉

/-- `k in d` / `d[k]` support: first value bound to key `k`, if any. -/
def lookupOpt (l : List (String × ℚ)) (k : String) : Option ℚ :=
  match l with
  | [] => none
  | (k', v) :: t => if k' = k then some v else lookupOpt t k

/-- `d.get(k, default)` on a string-keyed dictionary. -/
def lookupD (l : List (String × ℚ)) (k : String) (d : ℚ) : ℚ :=
  match lookupOpt l k with
  | some v => v
  | none => d

namespace StrategySelector

/-- Threshold configuration of `StrategySelector.__init__`
(src/on1builder/utils/advanced_analytics.py). -/
structure Selector where
  gas_threshold_high : ℚ := 100
  gas_threshold_medium : ℚ := 60
  volatility_threshold : ℚ := 10
  mempool_volume_high : ℚ := 1000

/-- A `StrategySelector` with the default thresholds. -/
def defaultSelector : Selector := {}

/-- `StrategySelector.select_strategy`: picks "skip", "multi_hop" or
"simple" from mempool rate, gas price and volatility.  The body cannot
raise on numeric inputs, so the `except` branch (returning "skip") is
unreachable in this typed model. -/
def select_strategy (s : Selector) (mempool_tx_rate gas_price_gwei
    token_price_volatility : ℚ) : String :=
  if s.gas_threshold_high ≤ gas_price_gwei ∨
      s.volatility_threshold ≤ token_price_volatility then
    "skip"
  else if s.mempool_volume_high ≤ mempool_tx_rate ∧
      gas_price_gwei < s.gas_threshold_medium then
    "multi_hop"
  else
    "simple"

/-- `StrategySelector.get_strategy_confidence`.  `market_conditions` is a
dictionary; an empty dictionary is falsy in Python, hence the early
return of the base confidence.  Individual missing keys default to `0`
through `dict.get(key, 0)`. -/
def get_strategy_confidence (strategy : String)
    (market_conditions : List (String × ℚ)) : ℚ :=
  if strategy = "skip" then 0
  else if market_conditions = [] then 1/2
  else
    let confidence : ℚ := 1/2
    let gas_price := lookupD market_conditions "gas_price_gwei" 0
    let confidence :=
      if gas_price < 30 then confidence + 1/5
      else if 80 < gas_price then confidence - 1/5
      else confidence
    let volatility := lookupD market_conditions "token_price_volatility" 0
    let confidence :=
      if volatility < 5 then confidence + 1/5
      else if 15 < volatility then confidence - 1/5
      else confidence
    let mempool_volume := lookupD market_conditions "mempool_tx_rate" 0
    let confidence :=
      if 500 < mempool_volume then confidence + 1/10
      else confidence
    max 0 (min 1 confidence)

/-- Modelled from the claim C8's words (NOT from the source), for
comparison with `get_strategy_confidence`: the confidence computation in
which a market-condition field that is missing from the input contributes
no adjustment (as if it were a neutral value). -/
def get_strategy_confidence_claimed (strategy : String)
    (market_conditions : List (String × ℚ)) : ℚ :=
  if strategy = "skip" then 0
  else
    let confidence : ℚ := 1/2
    let confidence :=
      match lookupOpt market_conditions "gas_price_gwei" with
      | none => confidence
      | some gas_price =>
        if gas_price < 30 then confidence + 1/5
        else if 80 < gas_price then confidence - 1/5
        else confidence
    let confidence :=
      match lookupOpt market_conditions "token_price_volatility" with
      | none => confidence
      | some volatility =>
        if volatility < 5 then confidence + 1/5
        else if 15 < volatility then confidence - 1/5
        else confidence
    let confidence :=
      match lookupOpt market_conditions "mempool_tx_rate" with
      | none => confidence
      | some mempool_volume =>
        if 500 < mempool_volume then confidence + 1/10
        else confidence
    max 0 (min 1 confidence)

end StrategySelector

namespace StrategySelector

/-- The given market-conditions dictionary with every one of the three
consulted fields made explicit, a missing field filled in with `0` (the
default that `dict.get(key, 0)` supplies in the source). -/
def fillDefaults (mc : List (String × ℚ)) : List (String × ℚ) :=
  [("gas_price_gwei", lookupD mc "gas_price_gwei" 0),
   ("token_price_volatility", lookupD mc "token_price_volatility" 0),
   ("mempool_tx_rate", lookupD mc "mempool_tx_rate" 0)]

end StrategySelector

/-- C3: for all inputs, `select_strategy` with default thresholds returns
"skip" when gas ≥ 100 or volatility ≥ 10 (inclusive), otherwise
"multi_hop" when mempool rate ≥ 1000 and gas < 60 (strict), otherwise
"simple". -/
theorem select_strategy_rule_order (m g v : ℚ) :
    StrategySelector.select_strategy StrategySelector.defaultSelector m g v =
      if 100 ≤ g ∨ 10 ≤ v then "skip"
      else if 1000 ≤ m ∧ g < 60 then "multi_hop"
      else "simple" := by
  rfl

/-- C8 counterexample: for the partial market-conditions input with only
`mempool_tx_rate = 600`, the code returns 1 (the missing gas and
volatility fields default to 0, which triggers the +0.2 low-gas and +0.2
low-volatility bonuses), while treating missing fields as neutral — as
the claim states — would give 0.6. -/
theorem get_strategy_confidence_missing_not_neutral :
    StrategySelector.get_strategy_confidence "simple"
        [("mempool_tx_rate", 600)] = 1 ∧
      StrategySelector.get_strategy_confidence_claimed "simple"
        [("mempool_tx_rate", 600)] = 3/5 ∧
      StrategySelector.get_strategy_confidence "simple"
          [("mempool_tx_rate", 600)] ≠
        StrategySelector.get_strategy_confidence_claimed "simple"
          [("mempool_tx_rate", 600)] := by
  refine ⟨?_, ?_, ?_⟩ <;>
    simp +decide [StrategySelector.get_strategy_confidence,
      StrategySelector.get_strategy_confidence_claimed, lookupD, lookupOpt] <;>
    norm_num

/-- C8 amended: `get_strategy_confidence` returns 0 for "skip" regardless
of market conditions; the result always lies in [0,1]; an entirely empty
market-conditions dictionary yields the base confidence 0.5; and for a
non-empty dictionary an individually missing field is NOT neutral: it is
equivalent to that field being present with value 0 (so a missing gas
field adds +0.2 and a missing volatility field adds +0.2, while a missing
mempool field adds nothing). -/
theorem get_strategy_confidence_amended (strategy : String)
    (mc : List (String × ℚ)) :
    (strategy = "skip" →
      StrategySelector.get_strategy_confidence strategy mc = 0) ∧
    (0 ≤ StrategySelector.get_strategy_confidence strategy mc ∧
      StrategySelector.get_strategy_confidence strategy mc ≤ 1) ∧
    (strategy ≠ "skip" → mc = [] →
      StrategySelector.get_strategy_confidence strategy mc = 1/2) ∧
    (mc ≠ [] →
      StrategySelector.get_strategy_confidence strategy mc =
        StrategySelector.get_strategy_confidence strategy
          (StrategySelector.fillDefaults mc)) := by
  refine ⟨?_, ?_, ?_, ?_⟩
  · intro hskip
    simp [StrategySelector.get_strategy_confidence, hskip]
  · unfold StrategySelector.get_strategy_confidence
    split
    · norm_num
    · split
      · norm_num
      · exact ⟨le_max_left 0 _, max_le (by norm_num) (min_le_left 1 _)⟩
  · intro hskip hmc
    simp [StrategySelector.get_strategy_confidence, hskip, hmc]
  · intro hmc
    have hfill : StrategySelector.fillDefaults mc ≠ [] := by
      simp [StrategySelector.fillDefaults]
    by_cases hskip : strategy = "skip"
    · simp [StrategySelector.get_strategy_confidence, hskip]
    · simp only [StrategySelector.get_strategy_confidence, hskip, hmc, hfill,
        if_false, ite_false, StrategySelector.fillDefaults]
      simp +decide [lookupD, lookupOpt]

/-- Witness for `get_strategy_confidence_amended` at concrete inputs. -/
theorem get_strategy_confidence_amended_witness :
    StrategySelector.get_strategy_confidence "skip" [("gas_price_gwei", 50)] = 0 ∧
    StrategySelector.get_strategy_confidence "simple" [] = 1/2 ∧
    StrategySelector.get_strategy_confidence "simple" [("gas_price_gwei", 50)] =
      StrategySelector.get_strategy_confidence "simple"
        (StrategySelector.fillDefaults [("gas_price_gwei", 50)]) :=
  ⟨(get_strategy_confidence_amended "skip" [("gas_price_gwei", 50)]).1 rfl,
   (get_strategy_confidence_amended "simple" []).2.2.1 (by decide) rfl,
   (get_strategy_confidence_amended "simple" [("gas_price_gwei", 50)]).2.2.2
     (by simp)⟩

namespace AdvancedAnalytics

/-- `OpportunityScore` (src/on1builder/utils/advanced_analytics.py):
scoring breakdown with six sub-scores and a confidence interval. -/
structure OpportunityScore where
  total_score : ℚ
  profit_potential : ℚ
  risk_score : ℚ
  execution_probability : ℚ
  market_conditions : ℚ
  gas_efficiency : ℚ
  competition_level : ℚ
  confidence_interval : ℚ × ℚ
deriving DecidableEq

/-- The weight dictionary returned by `_get_opportunity_weights`; the
source uses a string-keyed dict with exactly these six keys. -/
structure Weights where
  profit : ℚ
  risk : ℚ
  execution : ℚ
  market : ℚ
  gas : ℚ
  competition : ℚ
deriving DecidableEq

/-- Sum of all six weight entries. -/
def Weights.total (w : Weights) : ℚ :=
  w.profit + w.risk + w.execution + w.market + w.gas + w.competition

/-- `AdvancedAnalytics._get_opportunity_weights`: base weights, with some
entries overwritten for particular strategy types.  Note the source does
NOT renormalize the remaining entries after an override. -/
def _get_opportunity_weights (opportunity_type : String) : Weights :=
  let base_weights : Weights :=
    { profit := 3/10, risk := 2/10, execution := 2/10,
      market := 15/100, gas := 1/10, competition := 5/100 }
  if opportunity_type = "flashloan_arbitrage" then
    { base_weights with profit := 4/10, risk := 15/100 }
  else if opportunity_type = "sandwich" then
    { base_weights with risk := 3/10, competition := 15/100 }
  else if opportunity_type = "arbitrage" then
    { base_weights with execution := 25/100 }
  else
    base_weights

end AdvancedAnalytics

/-- C2 counterexample: the weight vector for "flashloan_arbitrage" does
not sum to 1.0 — the source overrides profit to 0.40 and risk to 0.15
without renormalizing the other entries, so the sum is 1.05 (and
"sandwich" sums to 1.20, "arbitrage" to 1.05). -/
theorem opportunity_weights_sum_not_one :
    (AdvancedAnalytics._get_opportunity_weights "flashloan_arbitrage").total
      = 21/20 ∧
    (AdvancedAnalytics._get_opportunity_weights "flashloan_arbitrage").total
      ≠ 1 := by
  constructor <;>
    simp +decide [AdvancedAnalytics._get_opportunity_weights,
      AdvancedAnalytics.Weights.total] <;>
    norm_num

/-- C2 amended: the default weight vector (used for "front_run",
"back_run" and "liquidation") is profit=0.30, risk=0.20, execution=0.20,
market=0.15, gas=0.10, competition=0.05 and sums to 1.0;
"flashloan_arbitrage" overrides profit to 0.40 and risk to 0.15,
"sandwich" overrides risk to 0.30 and competition to 0.15, and
"arbitrage" overrides execution to 0.25, in each case leaving the other
entries unchanged (no renormalization), so those vectors sum to 1.05,
1.20 and 1.05 respectively. -/
theorem opportunity_weights_amended :
    (AdvancedAnalytics._get_opportunity_weights "front_run" =
        { profit := 3/10, risk := 2/10, execution := 2/10,
          market := 15/100, gas := 1/10, competition := 5/100 } ∧
      (AdvancedAnalytics._get_opportunity_weights "front_run").total = 1) ∧
    (AdvancedAnalytics._get_opportunity_weights "back_run" =
        AdvancedAnalytics._get_opportunity_weights "front_run" ∧
      AdvancedAnalytics._get_opportunity_weights "liquidation" =
        AdvancedAnalytics._get_opportunity_weights "front_run") ∧
    (AdvancedAnalytics._get_opportunity_weights "flashloan_arbitrage" =
        { profit := 4/10, risk := 15/100, execution := 2/10,
          market := 15/100, gas := 1/10, competition := 5/100 } ∧
      (AdvancedAnalytics._get_opportunity_weights
        "flashloan_arbitrage").total = 21/20) ∧
    (AdvancedAnalytics._get_opportunity_weights "sandwich" =
        { profit := 3/10, risk := 3/10, execution := 2/10,
          market := 15/100, gas := 1/10, competition := 15/100 } ∧
      (AdvancedAnalytics._get_opportunity_weights "sandwich").total = 6/5) ∧
    (AdvancedAnalytics._get_opportunity_weights "arbitrage" =
        { profit := 3/10, risk := 2/10, execution := 25/100,
          market := 15/100, gas := 1/10, competition := 5/100 } ∧
      (AdvancedAnalytics._get_opportunity_weights "arbitrage").total
        = 21/20) := by
  refine ⟨⟨?_, ?_⟩, ⟨?_, ?_⟩, ⟨?_, ?_⟩, ⟨?_, ?_⟩, ⟨?_, ?_⟩⟩ <;>
    simp +decide [AdvancedAnalytics._get_opportunity_weights,
      AdvancedAnalytics.Weights.total] <;>
    norm_num

namespace AdvancedAnalytics

/-- Mutable analytics state consulted during scoring (only the parts the
scoring pass reads). -/
structure AnalyticsState where
  _success_rates : List (String × ℚ) := []
  _volatility_regime : String := "normal"

/-- The untyped opportunity dictionary, restricted to the keys the
scoring pass reads.  `none` models a missing key (`dict.get` supplies the
per-call-site default); `numeric_fields_ok = false` models a value on
which the `float(...)` conversions at the top of `score_opportunity`
raise.  The free-form remainder of the dictionary is not consulted by the
embedded code and is not modelled. -/
structure Opportunity where
  type : Option String := none
  expected_profit_eth : Option ℚ := none
  amount_in : Option ℚ := none
  gas_estimate_eth : Option ℚ := none
  tokens : Option (List String) := none
  slippage_estimate : Option ℚ := none
  price_data_quality : Option Bool := none
  liquidity_data_quality : Option Bool := none
  numeric_fields_ok : Bool := true

/-- `np.mean` on a list of rationals. -/
def npMean (l : List ℚ) : ℚ := l.sum / l.length

/-- `_get_token_volatility` placeholder: always `0.05`. -/
def _get_token_volatility (_token : String) : Option ℚ := some (5/100)

/-- `_assess_liquidity_risk` placeholder: always `0.2`. -/
def _assess_liquidity_risk (_o : Opportunity) : ℚ := 2/10

/-- `_get_strategy_risk`: base risk per strategy type, default `0.3`. -/
def _get_strategy_risk (strategy_type : String) : ℚ :=
  if strategy_type = "arbitrage" then 1/10
  else if strategy_type = "front_run" then 3/10
  else if strategy_type = "back_run" then 2/10
  else if strategy_type = "sandwich" then 1/2
  else if strategy_type = "flashloan_arbitrage" then 15/100
  else if strategy_type = "liquidation" then 25/100
  else 3/10

/-- `_get_market_conditions` placeholder: always `0.7`. -/
def _get_market_conditions : ℚ := 7/10

/-- `_assess_gas_stability` placeholder: always `0.8`. -/
def _assess_gas_stability : ℚ := 8/10

/-- `_assess_liquidity_availability` placeholder: always `0.9`. -/
def _assess_liquidity_availability (_o : Opportunity) : ℚ := 9/10

/-- `_get_market_regime_score` placeholder: always `0.6`. -/
def _get_market_regime_score : ℚ := 6/10

/-- `_get_volatility_score` placeholder: always `0.7`. -/
def _get_volatility_score (_o : Opportunity) : ℚ := 7/10

/-- `_get_trend_score` placeholder: always `0.6`. -/
def _get_trend_score (_o : Opportunity) : ℚ := 6/10

/-- `_get_sentiment_score` placeholder: always `0.5`. -/
def _get_sentiment_score (_o : Opportunity) : ℚ := 1/2

/-- `_find_similar_transactions` placeholder: always the empty list. -/
def _find_similar_transactions (_o : Opportunity) : List Unit := []

/-- `_get_historical_competition` placeholder: always `0.3`. -/
def _get_historical_competition (_o : Opportunity) : ℚ := 3/10

/-- `_assess_gas_competition` placeholder: always `0.4`. -/
def _assess_gas_competition : ℚ := 4/10

/-- `_calculate_profit_score`: ROI-tiered profit potential in [0,1]. -/
def _calculate_profit_score (expected_profit amount_in gas_estimate : ℚ) :
    ℚ :=
  if expected_profit ≤ 0 ∨ amount_in ≤ 0 then 0
  else
    let net_profit := expected_profit - gas_estimate
    if net_profit ≤ 0 then 0
    else
      let roi := net_profit / amount_in
      if roi < 1/1000 then 1/10
      else if roi < 1/100 then 3/10
      else if roi < 5/100 then 6/10
      else if roi < 1/10 then 8/10
      else min 1 (8/10 + (roi - 1/10) * 2)

/-- `_calculate_risk_score`: the method accumulates risk factors, but its
call `await self._get_competition_level(opportunity)` names a method that
is defined nowhere on `AdvancedAnalytics` (nor anywhere else in the
repository), so the attribute access raises `AttributeError` after the
volatility / liquidity / slippage factors and before the competition and
strategy factors and the final clamp. -/
def _calculate_risk_score (o : Opportunity) : Except String ℚ :=
  let tokens := o.tokens.getD []
  let volatility_factors : List ℚ := tokens.filterMap fun token =>
    match _get_token_volatility token with
    | some volatility =>
      if volatility ≠ 0 ∧ 1/10 < volatility then some (3/10) else none
    | none => none
  let liquidity_factors := volatility_factors ++ [_assess_liquidity_risk o]
  let slippage := o.slippage_estimate.getD (1/100)
  let _risk_factors :=
    liquidity_factors ++ (if 5/100 < slippage then [4/10] else [])
  Except.error
    "AttributeError: AdvancedAnalytics has no attribute _get_competition_level"

/-- `_calculate_execution_probability`: mean of four factors. -/
def _calculate_execution_probability (a : AnalyticsState) (o : Opportunity) :
    ℚ :=
  let strategy_type := o.type.getD "arbitrage"
  let success_rate :=
    match lookupOpt a._success_rates strategy_type with
    | some r => r
    | none => 1/2
  npMean [success_rate, _get_market_conditions, _assess_gas_stability,
    _assess_liquidity_availability o]

/-- `_calculate_market_conditions_score`: mean of four factors. -/
def _calculate_market_conditions_score (o : Opportunity) : ℚ :=
  npMean [_get_market_regime_score, _get_volatility_score o,
    _get_trend_score o, _get_sentiment_score o]

/-- `_calculate_gas_efficiency_score`: tiered gas/profit ratio score. -/
def _calculate_gas_efficiency_score (expected_profit gas_estimate : ℚ) : ℚ :=
  if expected_profit ≤ 0 ∨ gas_estimate ≤ 0 then 0
  else
    let gas_ratio := gas_estimate / expected_profit
    if gas_ratio < 5/100 then 1
    else if gas_ratio < 1/10 then 8/10
    else if gas_ratio < 2/10 then 6/10
    else if gas_ratio < 1/2 then 3/10
    else 0

/-- `_calculate_competition_score`: mean of three factors. -/
def _calculate_competition_score (o : Opportunity) : ℚ :=
  npMean [min 1 ((_find_similar_transactions o).length * (2/10) : ℚ),
    _get_historical_competition o, _assess_gas_competition]

/-- `_calculate_confidence_interval`: base 0.1 uncertainty, widened by
data-quality flags and the volatility regime, clamped to [0,1]. -/
def _calculate_confidence_interval (a : AnalyticsState) (o : Opportunity)
    (base_score : ℚ) : ℚ × ℚ :=
  let uncertainty : ℚ := 1/10
  let uncertainty :=
    if o.price_data_quality.getD true = false then uncertainty + 1/10
    else uncertainty
  let uncertainty :=
    if o.liquidity_data_quality.getD true = false then uncertainty + 1/10
    else uncertainty
  let uncertainty :=
    if a._volatility_regime = "high" then uncertainty + 15/100
    else uncertainty
  (max 0 (base_score - uncertainty), min 1 (base_score + uncertainty))

/-- The `try` body of `score_opportunity`: field extraction (which can
raise on malformed values), the six sub-scores, the weighted total and
the confidence interval.  Any raise propagates as `Except.error`. -/
def scoreOpportunityBody (a : AnalyticsState) (o : Opportunity) :
    Except String OpportunityScore :=
  if o.numeric_fields_ok = false then
    Except.error "float() conversion of an opportunity field failed"
  else
    let opportunity_type := o.type.getD "arbitrage"
    let expected_profit := o.expected_profit_eth.getD 0
    let amount_in := o.amount_in.getD 0
    let gas_estimate := o.gas_estimate_eth.getD 0
    let profit_score :=
      _calculate_profit_score expected_profit amount_in gas_estimate
    match _calculate_risk_score o with
    | Except.error e => Except.error e
    | Except.ok risk_score =>
      let execution_score := _calculate_execution_probability a o
      let market_score := _calculate_market_conditions_score o
      let gas_score := _calculate_gas_efficiency_score expected_profit
        gas_estimate
      let competition_score := _calculate_competition_score o
      let weights := _get_opportunity_weights opportunity_type
      let total_score :=
        profit_score * weights.profit + risk_score * weights.risk +
        execution_score * weights.execution + market_score * weights.market +
        gas_score * weights.gas + competition_score * weights.competition
      let confidence_interval :=
        _calculate_confidence_interval a o total_score
      Except.ok
        { total_score := total_score, profit_potential := profit_score,
          risk_score := risk_score, execution_probability := execution_score,
          market_conditions := market_score, gas_efficiency := gas_score,
          competition_level := competition_score,
          confidence_interval := confidence_interval }

/-- The fail-closed score returned by `score_opportunity`'s `except`
branch: zero total, maximal risk, empty confidence interval. -/
def failClosedScore : OpportunityScore :=
  { total_score := 0, profit_potential := 0, risk_score := 1,
    execution_probability := 0, market_conditions := 0, gas_efficiency := 0,
    competition_level := 1, confidence_interval := (0, 0) }

/-- `AdvancedAnalytics.score_opportunity`: the body with its enclosing
`try/except`. -/
def score_opportunity (a : AnalyticsState) (o : Opportunity) :
    OpportunityScore :=
  match scoreOpportunityBody a o with
  | Except.ok s => s
  | Except.error _ => failClosedScore

end AdvancedAnalytics

/-- C5: whenever an error is raised while computing the score,
`score_opportunity` returns the fail-closed `OpportunityScore` with
total_score = 0, risk_score = 1 and confidence interval (0, 0) — it
neither propagates the error nor returns an optimistic score. -/
theorem score_opportunity_fail_closed (a : AdvancedAnalytics.AnalyticsState)
    (o : AdvancedAnalytics.Opportunity) (e : String)
    (h : AdvancedAnalytics.scoreOpportunityBody a o = Except.error e) :
    AdvancedAnalytics.score_opportunity a o =
        AdvancedAnalytics.failClosedScore ∧
      (AdvancedAnalytics.score_opportunity a o).total_score = 0 ∧
      (AdvancedAnalytics.score_opportunity a o).risk_score = 1 ∧
      (AdvancedAnalytics.score_opportunity a o).confidence_interval = (0, 0) := by
  simp [AdvancedAnalytics.score_opportunity, h, AdvancedAnalytics.failClosedScore]

/-- Witness for `score_opportunity_fail_closed`: on any concrete input
the body in fact raises (the source calls the nonexistent method
`_get_competition_level`), and the fail-closed score is returned. -/
theorem score_opportunity_fail_closed_witness :
    AdvancedAnalytics.scoreOpportunityBody {} {} =
        Except.error
          "AttributeError: AdvancedAnalytics has no attribute _get_competition_level" ∧
      AdvancedAnalytics.score_opportunity {} {} =
        AdvancedAnalytics.failClosedScore :=
  ⟨rfl, (score_opportunity_fail_closed {} {} _ rfl).1⟩

namespace OpportunityDetector

/-- The opportunity dictionary as the detector sees it: the analytics
keys plus the detector-specific ones. -/
structure OppData extends AdvancedAnalytics.Opportunity where
  timestamp : Option ℚ := none
  time_sensitive : Option Bool := none

/-- `DetectedOpportunity` (src/on1builder/engines/opportunity_detector.py).
Timestamps are rationals (seconds); the free-form `metadata` dictionary
(which just stores the raw input and is never consulted by the embedded
operations) is not modelled. -/
structure DetectedOpportunity where
  id : String
  type : String
  chain_id : ℤ
  tokens : List String
  expected_profit_eth : ℚ
  amount_in : ℚ
  gas_estimate_eth : ℚ
  confidence_score : ℚ
  risk_level : String
  execution_priority : ℤ
  timestamp : ℚ
  analytics_score : Option AdvancedAnalytics.OpportunityScore := none
deriving DecidableEq

/-- `_get_risk_level`: convert the risk sub-score to a risk-level
string. -/
def _get_risk_level (risk_score : ℚ) : String :=
  if risk_score < 1/4 then "low"
  else if risk_score < 1/2 then "medium"
  else if risk_score < 3/4 then "high"
  else "extreme"

/-- `_calculate_execution_priority`: priority 1–10 from the total score,
the strategy type and time sensitivity. -/
def _calculate_execution_priority (opp_data : OppData)
    (analytics_score : AdvancedAnalytics.OpportunityScore) : ℤ :=
  let base_priority := pyInt (analytics_score.total_score * 10)
  let strategy_type := opp_data.type.getD "arbitrage"
  let base_priority :=
    if strategy_type = "flashloan_arbitrage" then base_priority + 2
    else if strategy_type = "sandwich" then base_priority - 1
    else base_priority
  let base_priority :=
    if opp_data.time_sensitive.getD false then base_priority + 1
    else base_priority
  max 1 (min 10 base_priority)

/-- `_score_opportunities`: score each opportunity dictionary and build a
`DetectedOpportunity`.  `genId` stands for `_generate_opportunity_id`
(an md5 digest of type/chain/tokens/timestamp, not modelled bit-for-bit);
`now` is `datetime.now()`.  The per-item `try/except ... continue` never
fires in this model because `score_opportunity` already catches its own
errors and the remaining construction cannot raise. -/
def _score_opportunities (a : AdvancedAnalytics.AnalyticsState)
    (genId : OppData → String) (chain_id : ℤ) (now : ℚ)
    (opportunities : List OppData) : List DetectedOpportunity :=
  opportunities.map fun opp_data =>
    let analytics_score :=
      AdvancedAnalytics.score_opportunity a opp_data.toOpportunity
    { id := genId opp_data,
      type := opp_data.type.getD "unknown",
      chain_id := chain_id,
      tokens := opp_data.tokens.getD [],
      expected_profit_eth := opp_data.expected_profit_eth.getD 0,
      amount_in := opp_data.amount_in.getD 0,
      gas_estimate_eth := opp_data.gas_estimate_eth.getD 0,
      confidence_score := analytics_score.total_score,
      risk_level := _get_risk_level analytics_score.risk_score,
      execution_priority :=
        _calculate_execution_priority opp_data analytics_score,
      timestamp := opp_data.timestamp.getD now,
      analytics_score := some analytics_score }

end OpportunityDetector

/-- C10: the risk level attached by the scoring pass is determined
totally from the analytics risk sub-score by the fixed thresholds 0.25,
0.5 and 0.75, and is always one of the four strings "low", "medium",
"high", "extreme". -/
theorem risk_level_total_from_risk_score (r : ℚ)
    (a : AdvancedAnalytics.AnalyticsState)
    (genId : OpportunityDetector.OppData → String) (chain_id : ℤ) (now : ℚ)
    (opportunities : List OpportunityDetector.OppData) :
    ((r < 1/4 → OpportunityDetector._get_risk_level r = "low") ∧
      (1/4 ≤ r → r < 1/2 →
        OpportunityDetector._get_risk_level r = "medium") ∧
      (1/2 ≤ r → r < 3/4 →
        OpportunityDetector._get_risk_level r = "high") ∧
      (3/4 ≤ r → OpportunityDetector._get_risk_level r = "extreme")) ∧
    (∀ d ∈ OpportunityDetector._score_opportunities a genId chain_id now
        opportunities,
      (∃ s, d.analytics_score = some s ∧
        d.risk_level = OpportunityDetector._get_risk_level s.risk_score) ∧
      (d.risk_level = "low" ∨ d.risk_level = "medium" ∨
        d.risk_level = "high" ∨ d.risk_level = "extreme")) := by
  constructor
  · refine ⟨fun h => ?_, fun h1 h2 => ?_, fun h1 h2 => ?_, fun h => ?_⟩
    · unfold OpportunityDetector._get_risk_level
      rw [if_pos (by linarith)]
    · unfold OpportunityDetector._get_risk_level
      rw [if_neg (by push_neg; linarith), if_pos (by linarith)]
    · unfold OpportunityDetector._get_risk_level
      rw [if_neg (by push_neg; linarith), if_neg (by push_neg; linarith),
        if_pos (by linarith)]
    · unfold OpportunityDetector._get_risk_level
      rw [if_neg (by push_neg; linarith), if_neg (by push_neg; linarith),
        if_neg (by push_neg; linarith)]
  · intro d hd
    simp only [OpportunityDetector._score_opportunities, List.mem_map] at hd
    obtain ⟨opp_data, _, rfl⟩ := hd
    refine ⟨⟨_, rfl, rfl⟩, ?_⟩
    unfold OpportunityDetector._get_risk_level
    split
    · exact Or.inl rfl
    · split
      · exact Or.inr (Or.inl rfl)
      · split
        · exact Or.inr (Or.inr (Or.inl rfl))
        · exact Or.inr (Or.inr (Or.inr rfl))

/-- Witness for `risk_level_total_from_risk_score` at concrete inputs:
the threshold clauses at r = 0.3, and the scoring pass on a singleton
list. -/
theorem risk_level_total_from_risk_score_witness :
    OpportunityDetector._get_risk_level (3/10) = "medium" ∧
    ∃ d, d ∈ OpportunityDetector._score_opportunities {} (fun _ => "x") 1 0
        [{}] ∧
      (d.risk_level = "low" ∨ d.risk_level = "medium" ∨
        d.risk_level = "high" ∨ d.risk_level = "extreme") := by
  constructor
  · exact (risk_level_total_from_risk_score (3/10) {} (fun _ => "x") 1 0
      []).1.2.1 (by norm_num) (by norm_num)
  · have hex : ∃ d, d ∈ OpportunityDetector._score_opportunities {}
        (fun _ => "x") 1 0 [{}] := by
      simp [OpportunityDetector._score_opportunities]
    obtain ⟨d, hd⟩ := hex
    exact ⟨d, hd, ((risk_level_total_from_risk_score 0 {} (fun _ => "x") 1 0
      [{}]).2 d hd).2⟩

namespace OpportunityDetector

/-- Membership test on a list of strings (Python `in` on a set of ids). -/
def strMem (s : String) (l : List String) : Bool :=
  match l with
  | [] => false
  | x :: t => if x = s then true else strMem s t

/-- The detector's opportunity store: the keyed opportunity map (a
Python dict, insertion-ordered), the blacklist set, and the two filter
thresholds read by `get_best_opportunities`
(`settings.min_profit_eth` and the fixed 0.6). -/
structure DetectorState where
  _detected_opportunities : List (String × DetectedOpportunity) := []
  _blacklisted_opportunities : List String := []
  _min_profit_threshold : ℚ := 1/100
  _min_confidence_score : ℚ := 6/10

/-- The ranking key of `get_best_opportunities`:
`expected_profit_eth * confidence_score`. -/
def priorityKey (o : DetectedOpportunity) : ℚ :=
  o.expected_profit_eth * o.confidence_score

/-- "Is ranked at least as high as": the descending order used by
`sort(key=..., reverse=True)`. -/
def priorityGe (a b : DetectedOpportunity) : Prop :=
  priorityKey b ≤ priorityKey a

instance : DecidableRel priorityGe :=
  fun a b => inferInstanceAs (Decidable (priorityKey b ≤ priorityKey a))

instance : IsTotal DetectedOpportunity priorityGe :=
  ⟨fun a b => le_total (priorityKey b) (priorityKey a)⟩

instance : IsTrans DetectedOpportunity priorityGe :=
  ⟨fun _ _ _ hab hbc => le_trans hbc hab⟩

/-- `get_best_opportunities(limit)`: filter the stored opportunities by
minimum profit, minimum confidence and the blacklist, sort descending by
`expected_profit × confidence` (a stable sort, like Python's), and
return the first `limit`. -/
def get_best_opportunities (st : DetectorState) (limit : ℕ) :
    List DetectedOpportunity :=
  let opportunities := st._detected_opportunities.map Prod.snd
  let valid_opportunities := opportunities.filter fun opp =>
    decide (st._min_profit_threshold ≤ opp.expected_profit_eth) &&
    decide (st._min_confidence_score ≤ opp.confidence_score) &&
    !(strMem opp.id st._blacklisted_opportunities)
  (valid_opportunities.insertionSort priorityGe).take limit

/-- `blacklist_opportunity(id)`: add the id to the blacklist set and
delete it from the opportunity map if present. -/
def blacklist_opportunity (st : DetectorState) (opportunity_id : String) :
    DetectorState :=
  { st with
    _blacklisted_opportunities :=
      if opportunity_id ∈ st._blacklisted_opportunities then
        st._blacklisted_opportunities
      else st._blacklisted_opportunities ++ [opportunity_id],
    _detected_opportunities :=
      st._detected_opportunities.filter fun p =>
        decide (p.1 ≠ opportunity_id) }

/-- Python `dict[k] = v`: replace in place if the key exists, else append
(insertion order preserved). -/
def dictUpsert (m : List (String × DetectedOpportunity)) (k : String)
    (v : DetectedOpportunity) : List (String × DetectedOpportunity) :=
  if m.any fun p => decide (p.1 = k) then
    m.map fun p => if p.1 = k then (k, v) else p
  else m ++ [(k, v)]

/-- `_update_detected_opportunities`: upsert every new opportunity by id
(with no blacklist check), then evict entries older than 300 seconds.
The history/statistics bookkeeping does not touch the map or the
blacklist and is not modelled. -/
def _update_detected_opportunities (st : DetectorState)
    (new_opportunities : List DetectedOpportunity) (now : ℚ) :
    DetectorState :=
  let m := new_opportunities.foldl
    (fun m opp => dictUpsert m opp.id opp) st._detected_opportunities
  { st with
    _detected_opportunities :=
      m.filter fun p => decide (now - p.2.timestamp ≤ 300) }

/-- A sequence of detection-cycle updates applied in order. -/
def applyUpdates (st : DetectorState)
    (ops : List (List DetectedOpportunity × ℚ)) : DetectorState :=
  ops.foldl (fun s op => _update_detected_opportunities s op.1 op.2) st

end OpportunityDetector

namespace OpportunityDetector

/-- A concrete stored opportunity used to exercise the store theorems. -/
def sampleOpp : DetectedOpportunity :=
  { id := "a", type := "arbitrage", chain_id := 1, tokens := [],
    expected_profit_eth := 1/10, amount_in := 1, gas_estimate_eth := 1/100,
    confidence_score := 7/10, risk_level := "low", execution_priority := 5,
    timestamp := 0 }

/-- A concrete second opportunity with a different id. -/
def sampleOppB : DetectedOpportunity :=
  { id := "b", type := "arbitrage", chain_id := 1, tokens := [],
    expected_profit_eth := 1/5, amount_in := 1, gas_estimate_eth := 1/100,
    confidence_score := 8/10, risk_level := "low", execution_priority := 5,
    timestamp := 0 }

/-- A concrete store holding `sampleOpp` under its id. -/
def sampleStore : DetectorState :=
  { _detected_opportunities := [("a", sampleOpp)] }

end OpportunityDetector

/-- C4: `get_best_opportunities(limit)` returns at most `limit`
elements; every returned opportunity meets the minimum-profit and
minimum-confidence thresholds and is not blacklisted; and the returned
list is sorted descending by `expected_profit_eth × confidence_score`. -/
theorem get_best_opportunities_spec (st : OpportunityDetector.DetectorState)
    (limit : ℕ) :
    (OpportunityDetector.get_best_opportunities st limit).length ≤ limit ∧
    (∀ o ∈ OpportunityDetector.get_best_opportunities st limit,
      st._min_profit_threshold ≤ o.expected_profit_eth ∧
      st._min_confidence_score ≤ o.confidence_score ∧
      OpportunityDetector.strMem o.id st._blacklisted_opportunities = false) ∧
    (OpportunityDetector.get_best_opportunities st limit).Pairwise
      OpportunityDetector.priorityGe := by
  unfold OpportunityDetector.get_best_opportunities
  refine ⟨?_, ?_, ?_⟩
  · exact List.length_take_le limit _
  · intro o ho
    have ho2 := List.mem_of_mem_take ho
    rw [(List.perm_insertionSort OpportunityDetector.priorityGe _).mem_iff]
      at ho2
    have hfil := List.of_mem_filter ho2
    simp only [Bool.and_eq_true, decide_eq_true_eq, Bool.not_eq_true']
      at hfil
    exact ⟨hfil.1.1, hfil.1.2, hfil.2⟩
  · exact (List.sorted_insertionSort OpportunityDetector.priorityGe _).sublist
      (List.take_sublist limit _)

/-- Witness for `get_best_opportunities_spec` at a concrete store with
one qualifying opportunity. -/
theorem get_best_opportunities_spec_witness :
    ∃ o, o ∈ OpportunityDetector.get_best_opportunities
        OpportunityDetector.sampleStore 10 ∧
      (1:ℚ)/100 ≤ o.expected_profit_eth ∧
      OpportunityDetector.strMem o.id [] = false := by
  have hex : ∃ o, o ∈ OpportunityDetector.get_best_opportunities
      OpportunityDetector.sampleStore 10 := by
    refine ⟨OpportunityDetector.sampleOpp, ?_⟩
    unfold OpportunityDetector.get_best_opportunities
      OpportunityDetector.sampleStore
    norm_num [OpportunityDetector.strMem, OpportunityDetector.sampleOpp,
      List.insertionSort, List.orderedInsert, List.filter]
  obtain ⟨o, ho⟩ := hex
  have h := (get_best_opportunities_spec OpportunityDetector.sampleStore
    10).2.1 o ho
  exact ⟨o, ho, h.1, h.2.2⟩

/-- `strMem` agrees with list membership. -/
lemma strMem_iff_mem (s : String) (l : List String) :
    OpportunityDetector.strMem s l = true ↔ s ∈ l := by
  induction l with
  | nil => simp [OpportunityDetector.strMem]
  | cons x t ih =>
    by_cases h : x = s
    · simp [OpportunityDetector.strMem, h]
    · simp only [OpportunityDetector.strMem, if_neg h, ih, List.mem_cons]
      constructor
      · exact Or.inr
      · rintro (rfl | hm)
        · exact absurd rfl h
        · exact hm

/-- Detection-cycle updates never touch the blacklist set. -/
lemma applyUpdates_blacklist (s : OpportunityDetector.DetectorState)
    (ops : List (List OpportunityDetector.DetectedOpportunity × ℚ)) :
    (OpportunityDetector.applyUpdates s ops)._blacklisted_opportunities =
      s._blacklisted_opportunities := by
  induction ops generalizing s with
  | nil => rfl
  | cons op t ih =>
    have : OpportunityDetector.applyUpdates s (op :: t) =
        OpportunityDetector.applyUpdates
          (OpportunityDetector._update_detected_opportunities s op.1 op.2)
          t := rfl
    rw [this, ih]
    rfl

/-- Every opportunity returned by `get_best_opportunities` passed the
filter: it is not blacklisted in the queried state. -/
lemma get_best_not_blacklisted (st : OpportunityDetector.DetectorState)
    (limit : ℕ) (o : OpportunityDetector.DetectedOpportunity)
    (ho : o ∈ OpportunityDetector.get_best_opportunities st limit) :
    OpportunityDetector.strMem o.id st._blacklisted_opportunities = false := by
  unfold OpportunityDetector.get_best_opportunities at ho
  have ho2 := List.mem_of_mem_take ho
  rw [(List.perm_insertionSort OpportunityDetector.priorityGe _).mem_iff]
    at ho2
  have hfil := List.of_mem_filter ho2
  simp only [Bool.and_eq_true, decide_eq_true_eq, Bool.not_eq_true'] at hfil
  exact hfil.2

/-- C7 counterexample: blacklisting "a" removes it from the store, but a
subsequent detection-cycle update carrying an opportunity with the same
id re-inserts it into the stored opportunity map (the upsert performs no
blacklist check), so the id does reappear. -/
theorem blacklisted_id_reappears_on_upsert :
    (OpportunityDetector._update_detected_opportunities
        (OpportunityDetector.blacklist_opportunity
          OpportunityDetector.sampleStore "a")
        [OpportunityDetector.sampleOpp] 0)._detected_opportunities =
      [("a", OpportunityDetector.sampleOpp)] ∧
    "a" ∈ (OpportunityDetector._update_detected_opportunities
        (OpportunityDetector.blacklist_opportunity
          OpportunityDetector.sampleStore "a")
        [OpportunityDetector.sampleOpp] 0)._blacklisted_opportunities := by
  constructor <;>
    norm_num [OpportunityDetector._update_detected_opportunities,
      OpportunityDetector.blacklist_opportunity,
      OpportunityDetector.dictUpsert, OpportunityDetector.sampleStore,
      OpportunityDetector.sampleOpp, List.filter]

/-- C7 amended: after `blacklist_opportunity(id)`, the id stays in the
blacklist set across every later sequence of detection-cycle updates
(there is no un-blacklist operation and updates never touch the set), and
it is permanently excluded from `get_best_opportunities` results; however
an update whose batch contains the same id does re-insert it into the
stored opportunity map, so the exclusion holds for the query surface, not
for the map itself. -/
theorem blacklist_permanent_for_get_best
    (st : OpportunityDetector.DetectorState) (opportunity_id : String)
    (ops : List (List OpportunityDetector.DetectedOpportunity × ℚ))
    (limit : ℕ) :
    opportunity_id ∈
      (OpportunityDetector.applyUpdates
        (OpportunityDetector.blacklist_opportunity st opportunity_id)
        ops)._blacklisted_opportunities ∧
    ∀ o ∈ OpportunityDetector.get_best_opportunities
        (OpportunityDetector.applyUpdates
          (OpportunityDetector.blacklist_opportunity st opportunity_id) ops)
        limit,
      o.id ≠ opportunity_id := by
  have hbl : opportunity_id ∈
      (OpportunityDetector.blacklist_opportunity st
        opportunity_id)._blacklisted_opportunities := by
    by_cases h : opportunity_id ∈ st._blacklisted_opportunities <;>
      simp [OpportunityDetector.blacklist_opportunity, h]
  constructor
  · rw [applyUpdates_blacklist]
    exact hbl
  · intro o ho heq
    have hf := get_best_not_blacklisted _ limit o ho
    rw [applyUpdates_blacklist] at hf
    rw [heq] at hf
    rw [Bool.eq_false_iff] at hf
    exact hf ((strMem_iff_mem _ _).mpr hbl)

/-- Witness for `blacklist_permanent_for_get_best`: blacklist "a" in the
sample store, run one update cycle carrying opportunity "b", and observe
"a" still blacklisted while the returned opportunity "b" is not it. -/
theorem blacklist_permanent_for_get_best_witness :
    "a" ∈ (OpportunityDetector.applyUpdates
        (OpportunityDetector.blacklist_opportunity
          OpportunityDetector.sampleStore "a")
        [([OpportunityDetector.sampleOppB], 0)])._blacklisted_opportunities ∧
    OpportunityDetector.sampleOppB.id ≠ "a" := by
  have hmem : OpportunityDetector.sampleOppB ∈
      OpportunityDetector.get_best_opportunities
        (OpportunityDetector.applyUpdates
          (OpportunityDetector.blacklist_opportunity
            OpportunityDetector.sampleStore "a")
          [([OpportunityDetector.sampleOppB], 0)]) 10 := by
    norm_num [OpportunityDetector.get_best_opportunities,
      OpportunityDetector.applyUpdates,
      OpportunityDetector._update_detected_opportunities,
      OpportunityDetector.blacklist_opportunity,
      OpportunityDetector.dictUpsert, OpportunityDetector.sampleStore,
      OpportunityDetector.sampleOpp, OpportunityDetector.sampleOppB,
      OpportunityDetector.strMem, List.filter, List.insertionSort,
      List.orderedInsert]
  exact ⟨(blacklist_permanent_for_get_best OpportunityDetector.sampleStore
      "a" [([OpportunityDetector.sampleOppB], 0)] 10).1,
    (blacklist_permanent_for_get_best OpportunityDetector.sampleStore
      "a" [([OpportunityDetector.sampleOppB], 0)] 10).2
      OpportunityDetector.sampleOppB hmem⟩

namespace FlashbotsRelay

/-- The parsed JSON object under the relay response's "result" key for
`eth_callBundle`: optional bundle hash, optional per-transaction gasUsed
list (already parsed from hex), optional coinbaseDiff (wei, from hex). -/
structure SimulationData where
  bundleHash : Option String := none
  results : Option (List ℕ) := none
  coinbaseDiff : Option ℕ := none
deriving DecidableEq

/-- Outcome of one relay HTTP exchange: either some raise inside the
`try` block (no session, transport error, `response.json()` failing on a
garbled body), or a JSON object, with or without an "error" field and
with an optional "result" field. -/
inductive RelayResponse where
  | failure
  | ok (hasError : Bool) (result : Option SimulationData)
deriving DecidableEq

/-- The dictionary `simulate_bundle` returns. -/
structure SimulationOutcome where
  success : Bool
  gas_used : ℕ
  estimated_profit : ℚ
  bundle_hash : Option String := none
deriving DecidableEq

/-- `FlashbotsRelay.simulate_bundle`: parse the relay's `eth_callBundle`
response; an "error" field or any raise yields the zeroed failure
dictionary; otherwise gas and coinbase profit are accumulated from the
"result" object (missing sub-fields contribute zero) and success holds
exactly when the object carries a bundleHash. -/
def simulate_bundle (resp : RelayResponse) : SimulationOutcome :=
  match resp with
  | RelayResponse.failure =>
    { success := false, gas_used := 0, estimated_profit := 0 }
  | RelayResponse.ok hasError result =>
    if hasError then
      { success := false, gas_used := 0, estimated_profit := 0 }
    else
      let simulation_data := result.getD {}
      let gas_used :=
        match simulation_data.results with
        | some tx_results => tx_results.foldl (fun acc g => acc + g) 0
        | none => 0
      let estimated_profit : ℚ :=
        match simulation_data.coinbaseDiff with
        | some diff => (diff : ℚ) / 10^18
        | none => 0
      { success := simulation_data.bundleHash.isSome,
        gas_used := gas_used,
        estimated_profit := estimated_profit,
        bundle_hash := simulation_data.bundleHash }

/-- An entry of the pending-bundle map. -/
structure PendingBundle where
  transactions : List String
  target_block : ℤ
  submission_time : ℚ
  status : String
deriving DecidableEq

/-- Python `dict[k] = v` on the pending-bundle map. -/
def pendingUpsert (m : List (String × PendingBundle)) (k : String)
    (v : PendingBundle) : List (String × PendingBundle) :=
  if m.any fun p => decide (p.1 = k) then
    m.map fun p => if p.1 = k then (k, v) else p
  else m ++ [(k, v)]

/-- The mutable relay state touched by `submit_bundle`. -/
structure RelayState where
  _pending_bundles : List (String × PendingBundle) := []
  total_submissions : ℕ := 0
  failed_submissions : ℕ := 0
  avg_latency_ms : ℚ := 0
deriving DecidableEq

/-- Outcome of the `eth_sendBundle` exchange: a raise anywhere in the
`try` block (payload construction, transport, JSON decoding), or a JSON
object with or without an "error" field and with an optional "result"
bundle-hash string. -/
inductive SubmitResponse where
  | failure
  | ok (hasError : Bool) (result : Option String)
deriving DecidableEq

/-- What `submit_bundle` returns to its caller. -/
structure SubmitResult where
  success : Bool
  bundle_hash : Option String := none
deriving DecidableEq

/-- `FlashbotsRelay.submit_bundle`: on a relay "error" field, a falsy
bundle hash (`None` or `""`) or any raise, the `except` branch reports
failure and only increments the failure counter; only a relay-returned
truthy bundle hash adds a pending-bundle entry and updates the
submission statistics. -/
def submit_bundle (st : RelayState) (transactions : List String)
    (target_block : ℤ) (start_time latency : ℚ)
    (resp : SubmitResponse) : SubmitResult × RelayState :=
  match resp with
  | SubmitResponse.failure =>
    ({ success := false },
      { st with failed_submissions := st.failed_submissions + 1 })
  | SubmitResponse.ok hasError result =>
    if hasError then
      ({ success := false },
        { st with failed_submissions := st.failed_submissions + 1 })
    else
      match result with
      | none =>
        ({ success := false },
          { st with failed_submissions := st.failed_submissions + 1 })
      | some bundle_hash =>
        if bundle_hash = "" then
          ({ success := false },
            { st with failed_submissions := st.failed_submissions + 1 })
        else
          ({ success := true, bundle_hash := some bundle_hash },
            { st with
              _pending_bundles := pendingUpsert st._pending_bundles
                bundle_hash
                { transactions := transactions,
                  target_block := target_block,
                  submission_time := start_time, status := "pending" },
              total_submissions := st.total_submissions + 1,
              avg_latency_ms :=
                st.avg_latency_ms * (9/10) + latency * (1/10) })

end FlashbotsRelay

/-- C6: `simulate_bundle` fails closed — a transport-level raise, a
response carrying an "error" field, or a missing "result" object all
yield success = false with zero gas and zero profit, and a response is
reported successful only when its "result" object carries a bundleHash. -/
theorem simulate_bundle_fail_closed
    (r : Option FlashbotsRelay.SimulationData)
    (d : FlashbotsRelay.SimulationData) :
    FlashbotsRelay.simulate_bundle FlashbotsRelay.RelayResponse.failure =
      { success := false, gas_used := 0, estimated_profit := 0 } ∧
    FlashbotsRelay.simulate_bundle (FlashbotsRelay.RelayResponse.ok true r) =
      { success := false, gas_used := 0, estimated_profit := 0 } ∧
    FlashbotsRelay.simulate_bundle
        (FlashbotsRelay.RelayResponse.ok false none) =
      { success := false, gas_used := 0, estimated_profit := 0 } ∧
    ((FlashbotsRelay.simulate_bundle
        (FlashbotsRelay.RelayResponse.ok false (some d))).success = true →
      ∃ h, d.bundleHash = some h) := by
  refine ⟨rfl, by simp [FlashbotsRelay.simulate_bundle], rfl, ?_⟩
  intro hs
  simp only [FlashbotsRelay.simulate_bundle, if_neg (by simp : ¬False),
    Bool.false_eq_true, ite_false, Option.getD_some] at hs
  exact Option.isSome_iff_exists.mp hs

/-- Witness for `simulate_bundle_fail_closed` with a successful
simulation payload. -/
theorem simulate_bundle_fail_closed_witness :
    ∃ h, (FlashbotsRelay.SimulationData.mk (some "0xbundle")
        (some [21000]) (some 1000000)).bundleHash = some h :=
  (simulate_bundle_fail_closed none
    (FlashbotsRelay.SimulationData.mk (some "0xbundle") (some [21000])
      (some 1000000))).2.2.2 rfl

/-- C9: `submit_bundle` is atomic on failure with respect to the
pending-bundle map — every call that reports success = false (relay
error field, missing or falsy result hash, transport raise) leaves the
map exactly as it was, and an entry is added only when the relay
returned a (truthy) bundle hash, under which the entry is stored. -/
theorem submit_bundle_failure_atomic (st : FlashbotsRelay.RelayState)
    (transactions : List String) (target_block : ℤ)
    (start_time latency : ℚ) (resp : FlashbotsRelay.SubmitResponse) :
    ((FlashbotsRelay.submit_bundle st transactions target_block start_time
        latency resp).1.success = false →
      (FlashbotsRelay.submit_bundle st transactions target_block start_time
        latency resp).2._pending_bundles = st._pending_bundles) ∧
    ((FlashbotsRelay.submit_bundle st transactions target_block start_time
        latency resp).1.success = true →
      ∃ h, resp = FlashbotsRelay.SubmitResponse.ok false (some h) ∧
        h ≠ "" ∧
        (FlashbotsRelay.submit_bundle st transactions target_block
          start_time latency resp).1.bundle_hash = some h ∧
        (FlashbotsRelay.submit_bundle st transactions target_block
          start_time latency resp).2._pending_bundles =
          FlashbotsRelay.pendingUpsert st._pending_bundles h
            { transactions := transactions, target_block := target_block,
              submission_time := start_time, status := "pending" }) := by
  cases resp with
  | failure => exact ⟨fun _ => rfl, fun h => by simp
      [FlashbotsRelay.submit_bundle] at h⟩
  | ok hasError result =>
    cases hasError with
    | true => exact ⟨fun _ => rfl, fun h => by simp
        [FlashbotsRelay.submit_bundle] at h⟩
    | false =>
      cases result with
      | none => exact ⟨fun _ => rfl, fun h => by simp
          [FlashbotsRelay.submit_bundle] at h⟩
      | some bundle_hash =>
        by_cases hempty : bundle_hash = ""
        · refine ⟨fun _ => ?_, fun h => ?_⟩
          · simp [FlashbotsRelay.submit_bundle, hempty]
          · rw [FlashbotsRelay.submit_bundle] at h
            simp [hempty] at h
        · refine ⟨fun h => ?_, fun _ => ?_⟩
          · rw [FlashbotsRelay.submit_bundle] at h
            simp [hempty] at h
          · exact ⟨bundle_hash, rfl, hempty,
              by simp [FlashbotsRelay.submit_bundle, hempty],
              by simp [FlashbotsRelay.submit_bundle, hempty]⟩

/-- Witness for `submit_bundle_failure_atomic`: a transport failure
leaves the map untouched, and a successful submission stores the entry
under the returned hash. -/
theorem submit_bundle_failure_atomic_witness :
    (FlashbotsRelay.submit_bundle {} ["0xf8"] 100 0 5
        FlashbotsRelay.SubmitResponse.failure).2._pending_bundles =
      FlashbotsRelay.RelayState._pending_bundles {} ∧
    ∃ h, FlashbotsRelay.SubmitResponse.ok false (some "0xhash") =
        FlashbotsRelay.SubmitResponse.ok false (some h) ∧
      h ≠ "" ∧
      (FlashbotsRelay.submit_bundle {} ["0xf8"] 100 0 5
        (FlashbotsRelay.SubmitResponse.ok false
          (some "0xhash"))).1.bundle_hash = some h ∧
      (FlashbotsRelay.submit_bundle {} ["0xf8"] 100 0 5
        (FlashbotsRelay.SubmitResponse.ok false
          (some "0xhash"))).2._pending_bundles =
        FlashbotsRelay.pendingUpsert
          (FlashbotsRelay.RelayState._pending_bundles {}) h
          { transactions := ["0xf8"], target_block := 100,
            submission_time := 0, status := "pending" } :=
  ⟨(submit_bundle_failure_atomic {} ["0xf8"] 100 0 5
      FlashbotsRelay.SubmitResponse.failure).1 rfl,
    (submit_bundle_failure_atomic {} ["0xf8"] 100 0 5
      (FlashbotsRelay.SubmitResponse.ok false (some "0xhash"))).2 rfl⟩

namespace ProfitOptimizer

/-- `ProfitAnalysis` (src/on1builder/utils/profit_optimizer.py). -/
structure ProfitAnalysis where
  gross_profit_eth : ℚ
  gas_cost_eth : ℚ
  net_profit_eth : ℚ
  roi_percentage : ℚ
  profitable : Bool
  confidence_score : ℚ
  risk_level : String
  recommended_gas_price_gwei : ℤ
  simulation_success : Bool
  execution_probability : ℚ
deriving DecidableEq

/-- The optimizer's configuration: the hard-coded 5% ROI floor, the
settings-supplied minimum profit and default gas limit. -/
structure OptimizerConfig where
  _min_roi_percentage : ℚ := 5
  _min_profit_eth : ℚ := 1/1000
  default_gas_limit : ℚ := 500000

/-- The optimizer's mutable state: the bounded gas-price history of
(timestamp, gwei) samples. -/
structure OptimizerState where
  _gas_price_history : List (ℚ × ℚ) := []
  _max_history_size : ℕ := 1000

/-- Results of the external web3 calls made during one analysis, plus
the wall clock: whether `eth_call`/`estimate_gas` raised, whether the
call result was non-None, the gas estimate, whether `eth.gas_price`
raised, the gas price in wei, and the current time. -/
structure Web3Env where
  sim_raises : Bool := false
  call_result_is_some : Bool := true
  gas_estimate : ℚ := 21000
  gas_price_raises : Bool := false
  gas_price_wei : ℚ := 50000000000
  now : ℚ := 0

/-- The transaction-parameter dictionary, restricted to the one key the
optimizer reads (`tx_params.get("gas", ...)`). -/
structure TxParams where
  gas : Option ℚ := none

/-- The opportunity dictionary, restricted to the keys the optimizer
reads; `none` is a missing key, `numeric_fields_ok = false` a value the
`float(...)` conversions raise on. -/
structure OppInput where
  expected_profit_eth : Option ℚ := none
  amount_in : Option ℚ := none
  type : Option String := none
  numeric_fields_ok : Bool := true

/-- The dictionary returned by `_simulate_transaction` (the unused raw
call result is not modelled). -/
structure TxSimResult where
  success : Bool
  gas_estimate : ℚ
  execution_probability : ℚ

/-- `_simulate_transaction`: a raise in `eth_call`/`estimate_gas` falls
back to the transaction's own gas limit (or the configured default) with
a 0.3 execution probability; otherwise success mirrors the call
returning a value. -/
def _simulate_transaction (cfg : OptimizerConfig) (env : Web3Env)
    (tx_params : TxParams) : TxSimResult :=
  if env.sim_raises then
    { success := false,
      gas_estimate := tx_params.gas.getD cfg.default_gas_limit,
      execution_probability := 3/10 }
  else
    { success := env.call_result_is_some,
      gas_estimate := env.gas_estimate,
      execution_probability :=
        if env.call_result_is_some then 9/10 else 1/10 }

/-- The dictionary returned by `_analyze_gas_costs`. -/
structure GasAnalysis where
  current_gas_price_gwei : ℚ
  optimized_gas_price_gwei : ℚ
  gas_estimate : ℚ
  current_gas_cost_eth : ℚ
  optimized_gas_cost_eth : ℚ
  gas_savings_eth : ℚ
  market_conditions : String

/-- `_calculate_optimal_gas_price`: with more than 10 history samples,
compare the current price against the trailing-10 average and propose
0.9× (high market), 1.1× (low market) or the unchanged price. -/
def _calculate_optimal_gas_price (history : List (ℚ × ℚ))
    (current_gas_price_gwei : ℚ) : ℚ :=
  if 10 < history.length then
    let recent_prices := (history.drop (history.length - 10)).map Prod.snd
    let avg_recent_price := recent_prices.sum / (recent_prices.length : ℚ)
    if avg_recent_price * (12/10) < current_gas_price_gwei then
      current_gas_price_gwei * (9/10)
    else if current_gas_price_gwei < avg_recent_price * (8/10) then
      current_gas_price_gwei * (11/10)
    else current_gas_price_gwei
  else current_gas_price_gwei

/-- `_assess_gas_market_conditions`: variance of the trailing 5 samples,
tiered into unknown / volatile / moderate / stable. -/
def _assess_gas_market_conditions (history : List (ℚ × ℚ)) : String :=
  if history.length < 5 then "unknown"
  else
    let recent_prices := (history.drop (history.length - 5)).map Prod.snd
    let mean := recent_prices.sum / (recent_prices.length : ℚ)
    let price_variance :=
      ((recent_prices.map fun p => (p - mean)^2).sum) /
        (recent_prices.length : ℚ)
    if 100 < price_variance then "volatile"
    else if 25 < price_variance then "moderate"
    else "stable"

/-- `_update_gas_price_history`: append the sample, then keep only the
most recent `_max_history_size` entries. -/
def _update_gas_price_history (st : OptimizerState)
    (now gas_price_gwei : ℚ) : OptimizerState :=
  let h := st._gas_price_history ++ [(now, gas_price_gwei)]
  { st with
    _gas_price_history :=
      if st._max_history_size < h.length then
        h.drop (h.length - st._max_history_size)
      else h }

/-- `_analyze_gas_costs`: gas costs at the current price and at the
history-optimized price; a raise in `eth.gas_price` falls back to the
fixed 50 gwei / 0.02 ETH dictionary with the history untouched.  The
history is updated before `market_conditions` is assessed (the source
calls `_update_gas_price_history` first). -/
def _analyze_gas_costs (cfg : OptimizerConfig) (st : OptimizerState)
    (env : Web3Env) (simulation_result : TxSimResult) :
    GasAnalysis × OptimizerState :=
  if env.gas_price_raises then
    ({ current_gas_price_gwei := 50, optimized_gas_price_gwei := 50,
       gas_estimate := cfg.default_gas_limit,
       current_gas_cost_eth := 1/50, optimized_gas_cost_eth := 1/50,
       gas_savings_eth := 0, market_conditions := "unknown" }, st)
  else
    let current_gas_price := env.gas_price_wei
    let current_gas_price_gwei := current_gas_price / 10^9
    let gas_estimate := simulation_result.gas_estimate
    let gas_cost_eth := gas_estimate * current_gas_price / 10^18
    let optimized_gas_price_gwei :=
      _calculate_optimal_gas_price st._gas_price_history
        current_gas_price_gwei
    let optimized_gas_cost_eth :=
      gas_estimate * (optimized_gas_price_gwei * 10^9) / 10^18
    let st' := _update_gas_price_history st env.now current_gas_price_gwei
    ({ current_gas_price_gwei := current_gas_price_gwei,
       optimized_gas_price_gwei := optimized_gas_price_gwei,
       gas_estimate := gas_estimate,
       current_gas_cost_eth := gas_cost_eth,
       optimized_gas_cost_eth := optimized_gas_cost_eth,
       gas_savings_eth := gas_cost_eth - optimized_gas_cost_eth,
       market_conditions :=
         _assess_gas_market_conditions st'._gas_price_history }, st')

/-- The dictionary returned by `_calculate_profitability`. -/
structure ProfitDict where
  gross_profit_eth : ℚ
  gas_cost_eth : ℚ
  net_profit_eth : ℚ
  roi_percentage : ℚ
  profitable : Bool
  confidence_score : ℚ
  risk_level : String
  execution_probability : ℚ

/-- `_calculate_profit_confidence`: base 0.5, adjusted for simulation
success, profit margin, gas-market conditions and strategy type, clamped
to [0.1, 1]. -/
def _calculate_profit_confidence (opportunity : OppInput)
    (gas_analysis : GasAnalysis) (simulation_result : TxSimResult)
    (net_profit : ℚ) : ℚ :=
  let confidence : ℚ := 1/2
  let confidence :=
    if simulation_result.success then confidence + 2/10 else confidence
  let confidence :=
    if 1/100 < net_profit then confidence + 15/100
    else if 1/200 < net_profit then confidence + 1/10
    else confidence
  let confidence :=
    if gas_analysis.market_conditions = "stable" then confidence + 1/10
    else if gas_analysis.market_conditions = "volatile" then
      confidence - 1/10
    else confidence
  let opportunity_type := opportunity.type.getD "unknown"
  let confidence :=
    if opportunity_type = "arbitrage" ∨
        opportunity_type = "flashloan_arbitrage" then confidence + 1/20
    else if opportunity_type = "sandwich" ∨
        opportunity_type = "front_run" then confidence - 1/10
    else confidence
  max (1/10) (min 1 confidence)

/-- `_assess_profit_risk`: point system over net profit, ROI and the
simulation flag, tiered into high / medium / low. -/
def _assess_profit_risk (net_profit roi_percentage : ℚ)
    (simulation_result : TxSimResult) : String :=
  let risk_score : ℤ := 0
  let risk_score :=
    if net_profit < 1/200 then risk_score + 3
    else if net_profit < 1/100 then risk_score + 2
    else if net_profit < 1/50 then risk_score + 1
    else risk_score
  let risk_score :=
    if roi_percentage < 5 then risk_score + 2
    else if roi_percentage < 10 then risk_score + 1
    else risk_score
  let risk_score :=
    if simulation_result.success then risk_score else risk_score + 2
  if 5 ≤ risk_score then "high"
  else if 3 ≤ risk_score then "medium"
  else "low"

/-- `_calculate_profitability`: net profit against the OPTIMIZED gas
cost, ROI over the input amount (0 when the amount is not positive), and
the three-way profitability test; a raise in the `float(...)` field
conversions falls back to the all-zero unprofitable dictionary. -/
def _calculate_profitability (cfg : OptimizerConfig)
    (opportunity : OppInput) (gas_analysis : GasAnalysis)
    (simulation_result : TxSimResult) : ProfitDict :=
  if opportunity.numeric_fields_ok = false then
    { gross_profit_eth := 0, gas_cost_eth := 0, net_profit_eth := 0,
      roi_percentage := 0, profitable := false, confidence_score := 0,
      risk_level := "high", execution_probability := 0 }
  else
    let expected_profit := opportunity.expected_profit_eth.getD 0
    let amount_in := opportunity.amount_in.getD 1
    let gas_cost := gas_analysis.optimized_gas_cost_eth
    let net_profit := expected_profit - gas_cost
    let roi_percentage :=
      if 0 < amount_in then net_profit / amount_in * 100 else 0
    let profitable :=
      decide (cfg._min_profit_eth ≤ net_profit) &&
      decide (cfg._min_roi_percentage ≤ roi_percentage) &&
      simulation_result.success
    { gross_profit_eth := expected_profit, gas_cost_eth := gas_cost,
      net_profit_eth := net_profit, roi_percentage := roi_percentage,
      profitable := profitable,
      confidence_score := _calculate_profit_confidence opportunity
        gas_analysis simulation_result net_profit,
      risk_level := _assess_profit_risk net_profit roi_percentage
        simulation_result,
      execution_probability := simulation_result.execution_probability }

/-- The dictionary returned by `_optimize_gas_price`. -/
structure GasOptimization where
  recommended_gas_price_gwei : ℤ
  potential_savings_eth : ℚ

/-- `_optimize_gas_price`: when the analysis is already profitable, keep
the history-optimized price; otherwise probe the 0.8×/0.9×/1.0×/1.1×
strategies and keep the one with the strictly best recomputed net
profit, falling back to the optimized price when none improves.  The
result is truncated to an integer gwei.  (The `except` fallback of the
source is unreachable on numeric inputs.) -/
def _optimize_gas_price (profit_analysis : ProfitDict)
    (gas_analysis : GasAnalysis) : GasOptimization :=
  let current_gas_price := gas_analysis.current_gas_price_gwei
  let optimized_gas_price := gas_analysis.optimized_gas_price_gwei
  let optimized_gas_price :=
    if profit_analysis.profitable then optimized_gas_price
    else
      let strategies := [current_gas_price * (8/10),
        current_gas_price * (9/10), current_gas_price,
        current_gas_price * (11/10)]
      let best := (strategies.foldl
        (fun acc gas_price =>
          let gas_cost_eth :=
            gas_analysis.gas_estimate * (gas_price * 10^9) / 10^18
          let net_profit := profit_analysis.gross_profit_eth - gas_cost_eth
          if acc.1 < net_profit then (net_profit, some gas_price) else acc)
        (profit_analysis.net_profit_eth, none)).2
      best.getD optimized_gas_price
  { recommended_gas_price_gwei := pyInt optimized_gas_price,
    potential_savings_eth := gas_analysis.gas_savings_eth }

/-- The maximally conservative `ProfitAnalysis` produced by the
exception fallbacks. -/
def conservativeAnalysis : ProfitAnalysis :=
  { gross_profit_eth := 0, gas_cost_eth := 0, net_profit_eth := 0,
    roi_percentage := 0, profitable := false, confidence_score := 0,
    risk_level := "high", recommended_gas_price_gwei := 0,
    simulation_success := false, execution_probability := 0 }

/-- `_finalize_profit_analysis`: recompute the gas cost from the
recommended gwei through the source's own (degenerate) formula
`g·10¹⁸·rec / (g·10¹⁸/g)`, truncated to whole wei; the final ROI divides
by a hard-coded 1 ETH ("Assuming 1 ETH investment"), not by the
opportunity's input amount.  When the prior gas cost is 0 the
denominator raises `ZeroDivisionError` and the `except` branch returns
the conservative analysis. -/
def _finalize_profit_analysis (cfg : OptimizerConfig)
    (profit_analysis : ProfitDict) (gas_optimization : GasOptimization)
    (simulation_result : TxSimResult) : ProfitAnalysis :=
  if profit_analysis.gas_cost_eth = 0 then conservativeAnalysis
  else
    let optimized_gas_cost_wei :=
      profit_analysis.gas_cost_eth * 10^18 *
        (gas_optimization.recommended_gas_price_gwei : ℚ) /
        (profit_analysis.gas_cost_eth * 10^18 /
          profit_analysis.gas_cost_eth)
    let optimized_gas_cost_eth := (pyInt optimized_gas_cost_wei : ℚ) / 10^18
    let final_net_profit :=
      profit_analysis.gross_profit_eth - optimized_gas_cost_eth
    let final_roi := final_net_profit / 1 * 100
    let final_profitable :=
      decide (cfg._min_profit_eth ≤ final_net_profit) &&
      decide (cfg._min_roi_percentage ≤ final_roi) &&
      simulation_result.success
    { gross_profit_eth := profit_analysis.gross_profit_eth,
      gas_cost_eth := optimized_gas_cost_eth,
      net_profit_eth := final_net_profit,
      roi_percentage := final_roi,
      profitable := final_profitable,
      confidence_score := profit_analysis.confidence_score,
      risk_level := profit_analysis.risk_level,
      recommended_gas_price_gwei :=
        gas_optimization.recommended_gas_price_gwei,
      simulation_success := simulation_result.success,
      execution_probability := profit_analysis.execution_probability }

/-- `ProfitOptimizer.analyze_profitability`: the five-step pipeline.
Each step catches its own exceptions internally, so the enclosing
`try/except` (which would return the conservative analysis) is
unreachable; the statistics bookkeeping does not affect the result. -/
def analyze_profitability (cfg : OptimizerConfig) (st : OptimizerState)
    (env : Web3Env) (opportunity : OppInput) (tx_params : TxParams) :
    ProfitAnalysis × OptimizerState :=
  let simulation_result := _simulate_transaction cfg env tx_params
  let gas_and_state := _analyze_gas_costs cfg st env simulation_result
  let profit_analysis := _calculate_profitability cfg opportunity
    gas_and_state.1 simulation_result
  let optimized_gas := _optimize_gas_price profit_analysis gas_and_state.1
  (_finalize_profit_analysis cfg profit_analysis optimized_gas
    simulation_result, gas_and_state.2)

end ProfitOptimizer

/-- The emitted fields of `_finalize_profit_analysis` satisfy the
amended relations in both its normal and its `ZeroDivisionError`
branch. -/
lemma finalize_profit_analysis_fields (cfg : ProfitOptimizer.OptimizerConfig)
    (pa : ProfitOptimizer.ProfitDict)
    (go : ProfitOptimizer.GasOptimization)
    (sim : ProfitOptimizer.TxSimResult) :
    (ProfitOptimizer._finalize_profit_analysis cfg pa go sim).net_profit_eth =
      (ProfitOptimizer._finalize_profit_analysis cfg pa go
        sim).gross_profit_eth -
      (ProfitOptimizer._finalize_profit_analysis cfg pa go
        sim).gas_cost_eth ∧
    (ProfitOptimizer._finalize_profit_analysis cfg pa go
        sim).roi_percentage =
      (ProfitOptimizer._finalize_profit_analysis cfg pa go
        sim).net_profit_eth * 100 ∧
    ((ProfitOptimizer._finalize_profit_analysis cfg pa go
        sim).profitable = true ↔
      (cfg._min_profit_eth ≤
          (ProfitOptimizer._finalize_profit_analysis cfg pa go
            sim).net_profit_eth ∧
        cfg._min_roi_percentage ≤
          (ProfitOptimizer._finalize_profit_analysis cfg pa go
            sim).roi_percentage ∧
        (ProfitOptimizer._finalize_profit_analysis cfg pa go
          sim).simulation_success = true)) := by
  unfold ProfitOptimizer._finalize_profit_analysis
    ProfitOptimizer.conservativeAnalysis
  split
  · refine ⟨by norm_num, by norm_num, ?_⟩
    simp
  · refine ⟨rfl, by simp [div_one], ?_⟩
    simp [Bool.and_eq_true, decide_eq_true_eq, div_one, and_assoc]

/-- C1 amended: in the `ProfitAnalysis` emitted by
`analyze_profitability`, the net profit equals gross profit minus the
emitted (finalize-recomputed) gas cost, the ROI percentage equals net
profit × 100 — the source divides by a hard-coded 1 ETH investment, not
by the opportunity's input amount — and `profitable` holds iff net
profit ≥ the minimum-profit floor AND that ROI ≥ the minimum-ROI floor
AND the simulation succeeded. -/
theorem analyze_profitability_amended (cfg : ProfitOptimizer.OptimizerConfig)
    (st : ProfitOptimizer.OptimizerState) (env : ProfitOptimizer.Web3Env)
    (opp : ProfitOptimizer.OppInput) (tx : ProfitOptimizer.TxParams) :
    (ProfitOptimizer.analyze_profitability cfg st env opp
        tx).1.net_profit_eth =
      (ProfitOptimizer.analyze_profitability cfg st env opp
        tx).1.gross_profit_eth -
      (ProfitOptimizer.analyze_profitability cfg st env opp
        tx).1.gas_cost_eth ∧
    (ProfitOptimizer.analyze_profitability cfg st env opp
        tx).1.roi_percentage =
      (ProfitOptimizer.analyze_profitability cfg st env opp
        tx).1.net_profit_eth * 100 ∧
    ((ProfitOptimizer.analyze_profitability cfg st env opp
        tx).1.profitable = true ↔
      (cfg._min_profit_eth ≤
          (ProfitOptimizer.analyze_profitability cfg st env opp
            tx).1.net_profit_eth ∧
        cfg._min_roi_percentage ≤
          (ProfitOptimizer.analyze_profitability cfg st env opp
            tx).1.roi_percentage ∧
        (ProfitOptimizer.analyze_profitability cfg st env opp
          tx).1.simulation_success = true)) :=
  finalize_profit_analysis_fields cfg _ _ _

namespace ProfitOptimizer

/-- Concrete web3 outcomes for the C1 counterexample: a successful
simulation with a 200000 gas estimate at 50 gwei (so the optimized gas
cost is exactly 0.01 ETH). -/
def roiEnv : Web3Env := { gas_estimate := 200000 }

/-- Concrete opportunity for the C1 counterexample: 0.5 ETH expected
profit on a 2 ETH input. -/
def roiOpp : OppInput :=
  { expected_profit_eth := some (1/2), amount_in := some 2,
    type := some "arbitrage" }

end ProfitOptimizer

/-- C1 counterexample: at a concrete profitable run with input amount
2 ETH, the emitted ROI is 50% (net × 100, from the hard-coded 1 ETH
investment in `_finalize_profit_analysis`), while the claimed
net / input × 100 would be 25% — so `roi_percentage` is NOT net profit
divided by the opportunity's input amount times 100. -/
theorem analyze_profitability_roi_counterexample :
    (ProfitOptimizer.analyze_profitability {} {} ProfitOptimizer.roiEnv
        ProfitOptimizer.roiOpp {}).1.roi_percentage = 50 ∧
    (ProfitOptimizer.analyze_profitability {} {} ProfitOptimizer.roiEnv
        ProfitOptimizer.roiOpp {}).1.net_profit_eth = 1/2 ∧
    ProfitOptimizer.roiOpp.amount_in.getD 1 = 2 ∧
    (ProfitOptimizer.analyze_profitability {} {} ProfitOptimizer.roiEnv
        ProfitOptimizer.roiOpp {}).1.roi_percentage ≠
      (ProfitOptimizer.analyze_profitability {} {} ProfitOptimizer.roiEnv
          ProfitOptimizer.roiOpp {}).1.net_profit_eth /
        (ProfitOptimizer.roiOpp.amount_in.getD 1) * 100 := by
  norm_num [ProfitOptimizer.analyze_profitability,
    ProfitOptimizer._simulate_transaction, ProfitOptimizer._analyze_gas_costs,
    ProfitOptimizer._calculate_optimal_gas_price,
    ProfitOptimizer._assess_gas_market_conditions,
    ProfitOptimizer._update_gas_price_history,
    ProfitOptimizer._calculate_profitability,
    ProfitOptimizer._calculate_profit_confidence,
    ProfitOptimizer._assess_profit_risk,
    ProfitOptimizer._optimize_gas_price,
    ProfitOptimizer._finalize_profit_analysis,
    ProfitOptimizer.conservativeAnalysis, ProfitOptimizer.roiEnv,
    ProfitOptimizer.roiOpp, pyInt]
